import Mathlib

/-
Shallow embedding of the lettuce Lattice Boltzmann simulation engine
(src/lettuce/simulation.py) and verification of its specification.

Modelling conventions:
- A distribution field of shape [Q] + grid_shape is a function
  Fin Q → Fin N → ℚ, the spatial grid flattened to N sites.
- torch tensors of reals are modelled with ℚ; torch.where with a
  grid-shaped mask broadcasts the mask across the leading velocity axis.
- External collaborators (streaming, collision, boundaries, the lattice
  and the flow's unit conversions) are opaque function parameters,
  matching their single-callable contracts.
- Side effects on reporters are modelled by an event trace: each
  reporter call reporter(i, i, f) becomes a StepEvent recording the
  reporter's index in the registration list and its three arguments.
- Wall-clock time is a parameter (elapsed seconds); Python float
  division by zero raises, so mlups returns an Option.
-/

namespace Lettuce

/-- A distribution field: Q discrete velocity directions over N flattened
spatial grid sites (shape [Q] + grid_shape in the source). -/
def Field (Q N : ℕ) : Type := Fin Q → Fin N → ℚ

/-- A boolean array shaped like one grid slice (grid_shape). -/
def Mask (N : ℕ) : Type := Fin N → Bool

/-- A pressure (or density) field: one value per spatial site. -/
def PressureField (N : ℕ) : Type := Fin N → ℚ

/-- torch.where(mask, a, b): the grid-shaped mask broadcasts across the
leading velocity-direction axis of the two fields. -/
def torchWhere {Q N : ℕ} (mask : Mask N) (a b : Field Q N) : Field Q N :=
  fun q x => if mask x then a q x else b q x

/-- A boundary condition object: its class name (the source tests
boundary.__class__.__name__), its per-site mask attribute, and its
callable action on a field. -/
structure Boundary (Q N : ℕ) where
  className : String
  mask : Mask N
  apply : Field Q N → Field Q N

/-- The collaborator objects stored on the Simulation at construction:
self.streaming, self.collision, and self.flow.boundaries. -/
structure SimOps (Q N : ℕ) where
  streaming : Field Q N → Field Q N
  collision : Field Q N → Field Q N
  boundaries : List (Boundary Q N)

/-- The mutable state of a Simulation object: the distribution field
self.f, the step counter self.i, the no-collision mask built at
construction, and the number of registered reporters (self.reporters
is an ordered list; only its length and order matter for the event
trace, so it is modelled by its length). -/
structure SimState (Q N : ℕ) where
  f : Field Q N
  i : ℕ
  no_collision_mask : Mask N
  reporters : ℕ

/-- Construction of the no-collision mask (simulation.py lines 38-43):
start from np.zeros_like(x[0], dtype=bool), then for every boundary
whose class name is BounceBackBoundary, OR its mask into the
accumulator. -/
def buildNoCollisionMask {Q N : ℕ} (bs : List (Boundary Q N)) : Mask N :=
  bs.foldl
    (fun acc b =>
      if b.className = "BounceBackBoundary" then (fun x => b.mask x || acc x) else acc)
    (fun _ => false)

/-- One record of a reporter invocation reporter(self.i, self.i, self.f):
the reporter's position in the registration list and the three
arguments it received. -/
structure StepEvent (Q N : ℕ) where
  reporter : ℕ
  arg1 : ℕ
  arg2 : ℕ
  field : Field Q N

/-- The boundary loop of step: for boundary in self.flow.boundaries:
self.f = boundary(self.f) — a left fold threading the field through
each boundary in list order. -/
def applyBoundaries {Q N : ℕ} (bs : List (Boundary Q N)) (f : Field Q N) : Field Q N :=
  bs.foldl (fun g b => b.apply g) f

/-- The stream-then-masked-collide phase of one step (lines 50-52):
self.f = self.streaming(self.f);
self.f = torch.where(self.no_collision_mask, self.f, self.collision(self.f)). -/
def collisionPhase {Q N : ℕ} (ops : SimOps Q N) (mask : Mask N) (f : Field Q N) :
    Field Q N :=
  torchWhere mask (ops.streaming f) (ops.collision (ops.streaming f))

/-- The reporter loop of step (lines 55-56): each reporter in
registration order is called with (self.i, self.i, self.f). -/
def runReporters {Q N : ℕ} (count i : ℕ) (f : Field Q N) : List (StepEvent Q N) :=
  (List.range count).map (fun r => ⟨r, i, i, f⟩)

/-- One iteration of the loop body of step(num_steps) (lines 48-56):
increment the counter, stream, masked collide, apply every boundary in
order, then invoke every reporter; returns the new state and the trace
of reporter calls. -/
def stepOnce {Q N : ℕ} (ops : SimOps Q N) (s : SimState Q N) :
    SimState Q N × List (StepEvent Q N) :=
  let f2 := applyBoundaries ops.boundaries (collisionPhase ops s.no_collision_mask s.f)
  (⟨f2, s.i + 1, s.no_collision_mask, s.reporters⟩,
   runReporters s.reporters (s.i + 1) f2)

/-- The loop of step(num_steps): num_steps iterations of the body,
accumulating the reporter-call trace. -/
def stepN {Q N : ℕ} (ops : SimOps Q N) : ℕ → SimState Q N → SimState Q N × List (StepEvent Q N)
  | 0, s => (s, [])
  | n + 1, s =>
    let r1 := stepOnce ops s
    let r2 := stepN ops n r1.1
    (r2.1, r1.2 ++ r2.2)

/-- The throughput computation of step (lines 57-61):
mlups = num_steps * num_grid_points / 1e6 / seconds. num_grid_points is
self.lattice.rho(self.f).numel(), the number N of spatial grid sites
(the density field has one entry per site). Python float division by a
zero elapsed time raises ZeroDivisionError, modelled as none. -/
def mlups (numSteps numGridPoints : ℕ) (seconds : ℚ) : Option ℚ :=
  if seconds = 0 then none
  else some ((numSteps : ℚ) * (numGridPoints : ℚ) / 1000000 / seconds)

/-- Simulation.step(num_steps): run the loop, then compute MLUPS from
the elapsed wall-clock seconds (a parameter of the model). Returns the
new state, the reporter-call trace, and the MLUPS value. -/
def simStep {Q N : ℕ} (ops : SimOps Q N) (numSteps : ℕ) (s : SimState Q N)
    (seconds : ℚ) : SimState Q N × List (StepEvent Q N) × Option ℚ :=
  let r := stepN ops numSteps s
  (r.1, r.2, mlups numSteps N seconds)

end Lettuce

namespace Lettuce

/-- A torch tensor as handed around at construction: its shape and its
flattened data. Only the shape takes part in the dimension checks. -/
structure Tensor where
  shape : List ℕ
  data : List ℚ

/-- The lattice capabilities used at construction: its dimensionality D
and its equilibrium function producing the initial distribution field
from density and velocity (conversion to tensor is folded in). -/
structure LatticeCaps (Q N : ℕ) where
  D : ℕ
  equilibrium : Tensor → Tensor → Field Q N

/-- The flow's unit-conversion policy used at construction. -/
structure UnitsCaps where
  convert_velocity_to_lu : Tensor → Tensor
  convert_pressure_pu_to_density_lu : Tensor → Tensor

/-- The flow object as consumed at construction: the common shape of its
grid coordinate arrays (list(grid[0].shape)), the initial solution
p, u, its units object, and its ordered boundary list. -/
structure FlowData (Q N : ℕ) where
  gridShape : List ℕ
  p : Tensor
  u : Tensor
  units : UnitsCaps
  boundaries : List (Boundary Q N)

/-- The error raised on a dimension mismatch, carrying the message text
and the expected and actual shapes it reports. -/
structure LettuceException where
  message : String
  expected : List ℕ
  actual : List ℕ

/-- Simulation.__init__ (lines 14-43): check that p has shape
[1] + grid_shape and u has shape [D] + grid_shape (raising with a
message naming expected and actual shapes otherwise), convert units,
build the initial field via the lattice equilibrium, set the counter to
0, the reporters list to empty, and build the no-collision mask. -/
def simulationInit {Q N : ℕ} (flow : FlowData Q N) (lattice : LatticeCaps Q N) :
    Except LettuceException (SimState Q N) :=
  if flow.p.shape = 1 :: flow.gridShape then
    if flow.u.shape = lattice.D :: flow.gridShape then
      let u := flow.units.convert_velocity_to_lu flow.u
      let rho := flow.units.convert_pressure_pu_to_density_lu flow.p
      Except.ok ⟨lattice.equilibrium rho u, 0, buildNoCollisionMask flow.boundaries, 0⟩
    else
      Except.error
        ⟨"Wrong dimension of initial velocity field.",
         lattice.D :: flow.gridShape, flow.u.shape⟩
  else
    Except.error
      ⟨"Wrong dimension of initial pressure field.",
       1 :: flow.gridShape, flow.p.shape⟩

end Lettuce

namespace Lettuce

/-- The collaborators of Simulation.initialize (lines 71-73, 78): the
stored streaming operator, the BGKInitialization collision built from
the lattice and flow, and the pressure extraction
flow.units.convert_density_lu_to_pressure_pu(lattice.rho(f)). -/
structure InitOps (Q N : ℕ) where
  streaming : Field Q N → Field Q N
  collision : Field Q N → Field Q N
  pressure : Field Q N → PressureField N

/-- One field update of the initialize loop body (lines 76-77):
self.f = streaming(self.f); self.f = collision(self.f) — applied at
every site, with no mask, boundary, or reporter involvement. -/
def initStepField {Q N : ℕ} (ops : InitOps Q N) (f : Field Q N) : Field Q N :=
  ops.collision (ops.streaming f)

/-- The convergence test of line 79:
torch.max(torch.abs(p - p_old)) < tol_pressure. torch.max of an empty
tensor raises, so the maximum is an Option; the none branch is
unreachable for a nonempty grid (N > 0). -/
def convergedCheck {N : ℕ} (tol : ℚ) (p pold : PressureField N) : Bool :=
  match ((List.finRange N).map (fun x => |p x - pold x|)).max? with
  | some m => decide (m < tol)
  | none => false

/-- The loop of initialize (lines 74-81), by fuel: rem iterations remain
and i is the index the next iteration would run under. On the break
(convergence) the current index is returned with the current field;
when the fuel runs out, the index of the last executed iteration,
i - 1, is returned, matching Python's for loop falling through to
return i with i still bound to the final loop index. -/
def initGo {Q N : ℕ} (ops : InitOps Q N) (tol : ℚ) :
    ℕ → ℕ → Field Q N → PressureField N → ℕ × Field Q N
  | 0, i, f, _ => (i - 1, f)
  | rem + 1, i, f, pold =>
    if convergedCheck tol (ops.pressure (initStepField ops f)) pold then
      (i, initStepField ops f)
    else
      initGo ops tol rem (i + 1) (initStepField ops f)
        (ops.pressure (initStepField ops f))

/-- Simulation.initialize (lines 63-82) acting on the field: p_old
starts as the scalar 0 (broadcast: the all-zero pressure field), the
loop runs up to max_num_steps times, and the loop index i is returned.
With max_num_steps = 0 the loop body never runs and return i raises
NameError (i is unbound), modelled as none with the field unchanged. -/
def iterInit {Q N : ℕ} (ops : InitOps Q N) (maxSteps : ℕ) (tol : ℚ) (f : Field Q N) :
    Option ℕ × Field Q N :=
  match maxSteps with
  | 0 => (none, f)
  | m + 1 =>
    (some (initGo ops tol (m + 1) 0 f (fun _ => 0)).1,
     (initGo ops tol (m + 1) 0 f (fun _ => 0)).2)

/-- Simulation.initialize on the full engine state: only self.f is
assigned; the counter, mask, and reporters are untouched. -/
def iterInitS {Q N : ℕ} (ops : InitOps Q N) (maxSteps : ℕ) (tol : ℚ) (s : SimState Q N) :
    Option ℕ × SimState Q N :=
  let r := iterInit ops maxSteps tol s.f
  (r.1, ⟨r.2, s.i, s.no_collision_mask, s.reporters⟩)

/-- The field reached after j iterations of the initialize loop body. -/
def initFieldAt {Q N : ℕ} (ops : InitOps Q N) (f0 : Field Q N) : ℕ → Field Q N
  | 0 => f0
  | j + 1 => initStepField ops (initFieldAt ops f0 j)

/-- The pressure computed on iteration j of the initialize loop (from
the field after j+1 updates). -/
def pAt {Q N : ℕ} (ops : InitOps Q N) (f0 : Field Q N) (j : ℕ) : PressureField N :=
  ops.pressure (initFieldAt ops f0 (j + 1))

/-- The p_old value held on iteration j: the scalar 0 (as a broadcast
field) on the first iteration, the previous pressure afterwards. -/
def poldAt {Q N : ℕ} (ops : InitOps Q N) (f0 : Field Q N) : ℕ → PressureField N
  | 0 => fun _ => 0
  | j + 1 => pAt ops f0 j

/-- Whether the pressure convergence criterion holds on iteration j. -/
def convergedAt {Q N : ℕ} (ops : InitOps Q N) (f0 : Field Q N) (tol : ℚ) (j : ℕ) : Bool :=
  convergedCheck tol (pAt ops f0 j) (poldAt ops f0 j)

end Lettuce

namespace Lettuce

/-- save_checkpoint (lines 84-87): pickle the field to the file; the
serialized form is the field's entries laid out by direction and site. -/
def serializeField {Q N : ℕ} (f : Field Q N) : List (List ℚ) :=
  (List.finRange Q).map (fun q => (List.finRange N).map (fun x => f q x))

/-- Unpickling: rebuild a field from its serialized entries. -/
def deserializeField {Q N : ℕ} (d : List (List ℚ)) : Field Q N :=
  fun q x => (d.getD q []).getD x 0

/-- save_checkpoint: write self.f (its serialized form is the file's
contents). -/
def save_checkpoint {Q N : ℕ} (s : SimState Q N) : List (List ℚ) :=
  serializeField s.f

/-- load_checkpoint (lines 89-92): replace self.f with the unpickled
field; nothing else in the engine state changes. -/
def load_checkpoint {Q N : ℕ} (s : SimState Q N) (file : List (List ℚ)) : SimState Q N :=
  ⟨deserializeField file, s.i, s.no_collision_mask, s.reporters⟩

end Lettuce

namespace Lettuce

/- Concrete instances used to exercise the theorems below. -/

/-- A concrete mask on a two-site grid: True at site 0 only. -/
def exMask : Mask 2 := fun x => decide (x.val = 0)

/-- A concrete distribution field on one direction and two sites. -/
def exField : Field 1 2 := fun _ x => (x.val : ℚ) + 3

/-- Concrete collaborators: identity streaming, a collision adding 1
everywhere, and no boundaries. -/
def exOps : SimOps 1 2 := ⟨fun f => f, fun f => fun q x => f q x + 1, []⟩

/-- A concrete engine state with one registered reporter. -/
def exState : SimState 1 2 := ⟨exField, 0, exMask, 1⟩

/-- C1: in every executed step, the field after the collision phase is
the post-streaming field at every site where the no-collision mask is
True and the collision operator's output elsewhere, the select being
broadcast across the velocity-direction axis (all q); the step then
applies the boundaries to exactly that field. -/
theorem collision_mask_select {Q N : ℕ} (ops : SimOps Q N) (s : SimState Q N)
    (q : Fin Q) (x : Fin N) :
    (stepOnce ops s).1.f =
        applyBoundaries ops.boundaries (collisionPhase ops s.no_collision_mask s.f) ∧
    (s.no_collision_mask x = true →
      collisionPhase ops s.no_collision_mask s.f q x = ops.streaming s.f q x) ∧
    (s.no_collision_mask x = false →
      collisionPhase ops s.no_collision_mask s.f q x =
        ops.collision (ops.streaming s.f) q x) := by
  refine ⟨rfl, ?_, ?_⟩ <;> intro h <;> simp [collisionPhase, torchWhere, h]

/-- Witness for C1 at a concrete state: site 0 is masked and keeps the
post-streaming value, site 1 is unmasked and takes the collision value. -/
theorem collision_mask_select_w :
    exState.no_collision_mask 0 = true ∧
    collisionPhase exOps exState.no_collision_mask exState.f 0 0 =
      exOps.streaming exState.f 0 0 ∧
    exState.no_collision_mask 1 = false ∧
    collisionPhase exOps exState.no_collision_mask exState.f 0 1 =
      exOps.collision (exOps.streaming exState.f) 0 1 :=
  ⟨by decide, (collision_mask_select exOps exState 0 0).2.1 (by decide),
   by decide, (collision_mask_select exOps exState 0 1).2.2 (by decide)⟩

/-- The state part of one step iteration. -/
def stepState {Q N : ℕ} (ops : SimOps Q N) (s : SimState Q N) : SimState Q N :=
  (stepOnce ops s).1

/-- The state after stepN is the n-th iterate of the loop body. -/
theorem stepN_fst {Q N : ℕ} (ops : SimOps Q N) :
    ∀ (n : ℕ) (s : SimState Q N), (stepN ops n s).1 = (stepState ops)^[n] s := by
  intro n
  induction n with
  | zero => intro s; rfl
  | succ n ih =>
    intro s
    show (stepN ops n (stepOnce ops s).1).1 = _
    rw [ih, Function.iterate_succ_apply]
    rfl

/-- C2: step(n1) followed by step(n2) produces the same field and the
same counter as step(n1+n2) from the same state, whatever the elapsed
times (hence whatever the returned MLUPS values) are. -/
theorem step_additive {Q N : ℕ} (ops : SimOps Q N) (n1 n2 : ℕ) (s : SimState Q N)
    (secs1 secs2 secs3 : ℚ) :
    (simStep ops n2 (simStep ops n1 s secs1).1 secs2).1.f
        = (simStep ops (n1 + n2) s secs3).1.f ∧
    (simStep ops n2 (simStep ops n1 s secs1).1 secs2).1.i
        = (simStep ops (n1 + n2) s secs3).1.i := by
  have h : (stepN ops n2 (stepN ops n1 s).1).1 = (stepN ops (n1 + n2) s).1 := by
    rw [stepN_fst, stepN_fst, stepN_fst, Nat.add_comm n1 n2,
      ← Function.iterate_add_apply]
  exact ⟨congrArg SimState.f h, congrArg SimState.i h⟩

/-- C4: step(0) leaves the whole engine state (field and counter)
unchanged, and for a nonzero elapsed time its MLUPS value is
well-defined and equal to 0 (no division by zero occurs). -/
theorem step_zero {Q N : ℕ} (ops : SimOps Q N) (s : SimState Q N) (seconds : ℚ)
    (h : seconds ≠ 0) :
    (simStep ops 0 s seconds).1 = s ∧ (simStep ops 0 s seconds).2.2 = some 0 := by
  refine ⟨rfl, ?_⟩
  simp [simStep, mlups, h]

/-- Witness for C4 at a concrete state with elapsed time 1. -/
theorem step_zero_w :
    (1 : ℚ) ≠ 0 ∧ (simStep exOps 0 exState 1).1 = exState ∧
      (simStep exOps 0 exState 1).2.2 = some 0 :=
  ⟨by norm_num,
   (step_zero exOps exState 1 (by norm_num)).1,
   (step_zero exOps exState 1 (by norm_num)).2⟩

/-- C9: initialize with max_num_steps = 0 raises (it returns no
iteration count: the loop variable is never bound) and leaves the
engine state, in particular the field, unchanged. -/
theorem iterInit_zero_steps {Q N : ℕ} (ops : InitOps Q N) (tol : ℚ)
    (s : SimState Q N) :
    (iterInitS ops 0 tol s).1 = none ∧ (iterInitS ops 0 tol s).2 = s :=
  ⟨rfl, rfl⟩

/-- Serialization round trip for distribution fields. -/
theorem deserializeField_serializeField {Q N : ℕ} (f : Field Q N) :
    deserializeField (serializeField f) = f := by
  funext q x
  have h1 : ∀ (g : Fin Q → List ℚ), ((List.finRange Q).map g).getD q.val [] = g q := by
    intro g
    rw [List.getD_eq_getElem _ _ (by simp)]
    simp
  have h2 : ∀ (v : Fin N → ℚ), ((List.finRange N).map v).getD x.val 0 = v x := by
    intro v
    rw [List.getD_eq_getElem _ _ (by simp)]
    simp
  show ((serializeField f).getD q.val []).getD x.val 0 = f q x
  rw [serializeField, h1, h2]

/-- C6: save_checkpoint followed by load_checkpoint — on the same
engine or on any other engine of the same field geometry — restores the
distribution field exactly as it was saved. -/
theorem checkpoint_roundtrip {Q N : ℕ} (s t : SimState Q N) :
    (load_checkpoint t (save_checkpoint s)).f = s.f ∧
    (load_checkpoint s (save_checkpoint s)).f = s.f := by
  constructor <;>
    simp [load_checkpoint, save_checkpoint, deserializeField_serializeField]

end Lettuce

namespace Lettuce

/-- C3: construction with a pressure field whose shape is not
[1] + grid_shape fails with a dimension-mismatch error naming the
expected and actual shapes, and no engine state is produced; likewise
for a velocity field whose shape is not [D] + grid_shape. -/
theorem init_shape_check {Q N : ℕ} (flow : FlowData Q N) (lattice : LatticeCaps Q N) :
    (flow.p.shape ≠ 1 :: flow.gridShape →
      (∃ e : LettuceException, simulationInit flow lattice = Except.error e ∧
        e.expected = 1 :: flow.gridShape ∧ e.actual = flow.p.shape) ∧
      ∀ s, simulationInit flow lattice ≠ Except.ok s) ∧
    (flow.p.shape = 1 :: flow.gridShape → flow.u.shape ≠ lattice.D :: flow.gridShape →
      (∃ e : LettuceException, simulationInit flow lattice = Except.error e ∧
        e.expected = lattice.D :: flow.gridShape ∧ e.actual = flow.u.shape) ∧
      ∀ s, simulationInit flow lattice ≠ Except.ok s) := by
  constructor
  · intro hp
    have h : simulationInit flow lattice =
        Except.error
          ⟨"Wrong dimension of initial pressure field.",
           1 :: flow.gridShape, flow.p.shape⟩ := by
      unfold simulationInit
      rw [if_neg hp]
    refine ⟨⟨_, h, rfl, rfl⟩, ?_⟩
    intro s hs
    rw [h] at hs
    exact Except.noConfusion hs
  · intro hp hu
    have h : simulationInit flow lattice =
        Except.error
          ⟨"Wrong dimension of initial velocity field.",
           lattice.D :: flow.gridShape, flow.u.shape⟩ := by
      unfold simulationInit
      rw [if_pos hp, if_neg hu]
    refine ⟨⟨_, h, rfl, rfl⟩, ?_⟩
    intro s hs
    rw [h] at hs
    exact Except.noConfusion hs

/-- Identity unit conversions for the concrete examples. -/
def exUnits : UnitsCaps := ⟨fun t => t, fun t => t⟩

/-- A concrete lattice with D = 1 and a constant equilibrium. -/
def exLat : LatticeCaps 1 2 := ⟨1, fun _ _ => exField⟩

/-- A concrete flow whose pressure has the wrong shape ([2,2] instead
of [1,2]). -/
def exFlowBadP : FlowData 1 2 := ⟨[2], ⟨[2, 2], []⟩, ⟨[1, 2], []⟩, exUnits, []⟩

/-- A concrete flow whose velocity has the wrong shape ([2,2] instead
of [1,2]). -/
def exFlowBadU : FlowData 1 2 := ⟨[2], ⟨[1, 2], []⟩, ⟨[2, 2], []⟩, exUnits, []⟩

/-- Witness for C3: both malformed flows are rejected with the expected
and actual shapes reported, and neither yields an engine state. -/
theorem init_shape_check_w :
    (exFlowBadP.p.shape ≠ 1 :: exFlowBadP.gridShape ∧
      (∃ e : LettuceException, simulationInit exFlowBadP exLat = Except.error e ∧
        e.expected = 1 :: exFlowBadP.gridShape ∧ e.actual = exFlowBadP.p.shape) ∧
      ∀ s, simulationInit exFlowBadP exLat ≠ Except.ok s) ∧
    (exFlowBadU.u.shape ≠ exLat.D :: exFlowBadU.gridShape ∧
      (∃ e : LettuceException, simulationInit exFlowBadU exLat = Except.error e ∧
        e.expected = exLat.D :: exFlowBadU.gridShape ∧ e.actual = exFlowBadU.u.shape) ∧
      ∀ s, simulationInit exFlowBadU exLat ≠ Except.ok s) :=
  ⟨⟨by decide, ((init_shape_check exFlowBadP exLat).1 (by decide)).1,
      ((init_shape_check exFlowBadP exLat).1 (by decide)).2⟩,
   ⟨by decide, ((init_shape_check exFlowBadU exLat).2 (by decide) (by decide)).1,
      ((init_shape_check exFlowBadU exLat).2 (by decide) (by decide)).2⟩⟩

/-- Unfolding of the mask accumulation: a site is set in the folded
mask exactly when the accumulator already had it or some bounce-back
boundary in the list has it. -/
theorem buildNoCollisionMask_foldl {Q N : ℕ} :
    ∀ (bs : List (Boundary Q N)) (acc : Mask N) (x : Fin N),
      (bs.foldl
        (fun acc b =>
          if b.className = "BounceBackBoundary" then (fun x => b.mask x || acc x) else acc)
        acc) x = true ↔
      acc x = true ∨
        ∃ b ∈ bs, b.className = "BounceBackBoundary" ∧ b.mask x = true := by
  intro bs
  induction bs with
  | nil => intro acc x; simp
  | cons b bs ih =>
    intro acc x
    simp only [List.foldl_cons, List.mem_cons]
    by_cases hb : b.className = "BounceBackBoundary"
    · rw [if_pos hb, ih]
      simp only [Bool.or_eq_true]
      constructor
      · rintro (⟨hm | ha⟩ | ⟨b', hb', hc', hm'⟩)
        · exact Or.inr ⟨b, Or.inl rfl, hb, hm⟩
        · exact Or.inl ha
        · exact Or.inr ⟨b', Or.inr hb', hc', hm'⟩
      · rintro (ha | ⟨b', hb' | hb', hc', hm'⟩)
        · exact Or.inl (Or.inr ha)
        · subst hb'
          exact Or.inl (Or.inl hm')
        · exact Or.inr ⟨b', hb', hc', hm'⟩
    · rw [if_neg hb, ih]
      constructor
      · rintro (ha | ⟨b', hb', hc', hm'⟩)
        · exact Or.inl ha
        · exact Or.inr ⟨b', Or.inr hb', hc', hm'⟩
      · rintro (ha | ⟨b', hb' | hb', hc', hm'⟩)
        · exact Or.inl ha
        · subst hb'
          exact absurd hc' hb
        · exact Or.inr ⟨b', hb', hc', hm'⟩

/-- The constructed mask is set exactly at sites covered by some
bounce-back boundary of the list. -/
theorem buildNoCollisionMask_true_iff {Q N : ℕ} (bs : List (Boundary Q N)) (x : Fin N) :
    buildNoCollisionMask bs x = true ↔
      ∃ b ∈ bs, b.className = "BounceBackBoundary" ∧ b.mask x = true := by
  have h := buildNoCollisionMask_foldl bs (fun _ => false) x
  simp only [Bool.false_eq_true, false_or] at h
  exact h

/-- The step loop never changes the no-collision mask. -/
theorem stepN_mask {Q N : ℕ} (ops : SimOps Q N) :
    ∀ (n : ℕ) (st : SimState Q N),
      (stepN ops n st).1.no_collision_mask = st.no_collision_mask := by
  intro n
  induction n with
  | zero => intro st; rfl
  | succ n ih => intro st; exact ih (stepOnce ops st).1

/-- C7: the no-collision mask built at construction is set exactly at
the sites covered by some bounce-back boundary of the flow's list, it
is all-False when the flow supplies no bounce-back boundary, and
neither stepping nor iterative initialization ever modifies it. -/
theorem no_collision_mask_spec {Q N : ℕ} (flow : FlowData Q N) (lattice : LatticeCaps Q N)
    (st : SimState Q N) (ops : SimOps Q N) (iops : InitOps Q N)
    (n maxSteps : ℕ) (tol : ℚ) (x : Fin N) :
    (∀ s, simulationInit flow lattice = Except.ok s →
      (s.no_collision_mask x = true ↔
        ∃ b ∈ flow.boundaries, b.className = "BounceBackBoundary" ∧ b.mask x = true)) ∧
    ((∀ b ∈ flow.boundaries, b.className ≠ "BounceBackBoundary") →
      ∀ s, simulationInit flow lattice = Except.ok s → s.no_collision_mask x = false) ∧
    (stepN ops n st).1.no_collision_mask = st.no_collision_mask ∧
    (iterInitS iops maxSteps tol st).2.no_collision_mask = st.no_collision_mask := by
  have hget : ∀ s, simulationInit flow lattice = Except.ok s →
      s.no_collision_mask = buildNoCollisionMask flow.boundaries := by
    intro s hs
    unfold simulationInit at hs
    split_ifs at hs
    · simp only [Except.ok.injEq] at hs
      rw [← hs]
  refine ⟨?_, ?_, stepN_mask ops n st, rfl⟩
  · intro s hs
    rw [hget s hs]
    exact buildNoCollisionMask_true_iff flow.boundaries x
  · intro hnone s hs
    rw [hget s hs]
    rcases hmv : buildNoCollisionMask flow.boundaries x with _ | _
    · rfl
    · exfalso
      rcases (buildNoCollisionMask_true_iff flow.boundaries x).mp hmv with ⟨b, hb, hc, _⟩
      exact hnone b hb hc

end Lettuce

namespace Lettuce

/-- A concrete bounce-back boundary covering site 0. -/
def exBoundaryBB : Boundary 1 2 := ⟨"BounceBackBoundary", exMask, fun f => f⟩

/-- A concrete non-bounce-back boundary. -/
def exBoundaryOther : Boundary 1 2 := ⟨"EquilibriumBoundaryPU", fun _ => false, fun f => f⟩

/-- A concrete well-shaped flow with one bounce-back and one other
boundary. -/
def exFlowGood : FlowData 1 2 :=
  ⟨[2], ⟨[1, 2], []⟩, ⟨[1, 2], []⟩, exUnits, [exBoundaryBB, exBoundaryOther]⟩

/-- A concrete well-shaped flow with no bounce-back boundary. -/
def exFlowNoBB : FlowData 1 2 :=
  ⟨[2], ⟨[1, 2], []⟩, ⟨[1, 2], []⟩, exUnits, [exBoundaryOther]⟩

/-- The engine state produced by construction from exFlowGood. -/
def exInitState : SimState 1 2 :=
  ⟨exField, 0, buildNoCollisionMask exFlowGood.boundaries, 0⟩

/-- The engine state produced by construction from exFlowNoBB. -/
def exInitStateNoBB : SimState 1 2 :=
  ⟨exField, 0, buildNoCollisionMask exFlowNoBB.boundaries, 0⟩

/-- Concrete initialization collaborators: identity streaming and
collision, pressure reads the first direction of the field. -/
def exInitOps : InitOps 1 2 := ⟨fun f => f, fun f => f, fun f => fun x => f 0 x⟩

/-- Witness for C7: on the concrete flows, construction succeeds, the
mask of the flow with a bounce-back boundary is set at site 0 because
that boundary covers it, and the flow with no bounce-back boundary gets
an all-False mask at site 0. -/
theorem no_collision_mask_spec_w :
    simulationInit exFlowGood exLat = Except.ok exInitState ∧
    (exInitState.no_collision_mask 0 = true ↔
      ∃ b ∈ exFlowGood.boundaries,
        b.className = "BounceBackBoundary" ∧ b.mask 0 = true) ∧
    (∀ b ∈ exFlowNoBB.boundaries, b.className ≠ "BounceBackBoundary") ∧
    exInitStateNoBB.no_collision_mask 0 = false :=
  ⟨rfl,
   (no_collision_mask_spec exFlowGood exLat exState exOps exInitOps 1 1 1 0).1
     exInitState rfl,
   by decide,
   (no_collision_mask_spec exFlowNoBB exLat exState exOps exInitOps 1 1 1 0).2.1
     (by decide) exInitStateNoBB rfl⟩

/-- The field transformation of one full step: stream, masked collide,
then apply all boundaries in order. -/
def boundaryPhaseField {Q N : ℕ} (ops : SimOps Q N) (mask : Mask N) (f : Field Q N) :
    Field Q N :=
  applyBoundaries ops.boundaries (collisionPhase ops mask f)

/-- C8: over any run of step(num_steps), the reporter-call trace is,
step by step, the reporters in registration order, each invoked exactly
once with the current counter passed twice and the current field — the
field obtained after the boundary conditions were applied in list order
on that step. -/
theorem reporter_trace_spec {Q N : ℕ} (ops : SimOps Q N) :
    ∀ (n : ℕ) (s : SimState Q N),
      (stepN ops n s).2 =
        (List.range n).flatMap (fun k =>
          runReporters s.reporters (s.i + k + 1)
            ((boundaryPhaseField ops s.no_collision_mask)^[k + 1] s.f)) := by
  intro n
  induction n with
  | zero => intro s; rfl
  | succ n ih =>
    intro s
    have hfun : (fun k =>
          runReporters (stepOnce ops s).1.reporters ((stepOnce ops s).1.i + k + 1)
            ((boundaryPhaseField ops (stepOnce ops s).1.no_collision_mask)^[k + 1]
              (stepOnce ops s).1.f))
        = (fun k =>
          runReporters s.reporters (s.i + (k + 1) + 1)
            ((boundaryPhaseField ops s.no_collision_mask)^[k + 1 + 1] s.f)) := by
      funext k
      show runReporters s.reporters (s.i + 1 + k + 1)
          ((boundaryPhaseField ops s.no_collision_mask)^[k + 1]
            (boundaryPhaseField ops s.no_collision_mask s.f)) = _
      rw [← Function.iterate_succ_apply]
      have h1 : s.i + 1 + k + 1 = s.i + (k + 1) + 1 := by omega
      rw [h1]
    show runReporters s.reporters (s.i + 1)
        (applyBoundaries ops.boundaries (collisionPhase ops s.no_collision_mask s.f))
        ++ (stepN ops n (stepOnce ops s).1).2 = _
    rw [ih, hfun, List.range_succ_eq_map, List.flatMap_cons, List.flatMap_map]
    rfl

end Lettuce


namespace Lettuce

/-- Unfolding: the field after j+1 loop iterations is one update past
the field after j. -/
theorem initFieldAt_succ {Q N : ℕ} (ops : InitOps Q N) (f0 : Field Q N) (j : ℕ) :
    initFieldAt ops f0 (j + 1) = initStepField ops (initFieldAt ops f0 j) := rfl

/-- Unfolding: the field before any iteration is the starting field. -/
theorem initFieldAt_zero {Q N : ℕ} (ops : InitOps Q N) (f0 : Field Q N) :
    initFieldAt ops f0 0 = f0 := rfl

/-- Unfolding: on iteration j+1 the previous pressure is iteration j's
pressure. -/
theorem poldAt_succ {Q N : ℕ} (ops : InitOps Q N) (f0 : Field Q N) (j : ℕ) :
    poldAt ops f0 (j + 1) = pAt ops f0 j := rfl

/-- Unfolding: on iteration 0 the previous pressure is the broadcast
scalar 0. -/
theorem poldAt_zero {Q N : ℕ} (ops : InitOps Q N) (f0 : Field Q N) :
    poldAt ops f0 0 = (fun _ => 0) := rfl

/-- Unfolding of the iteration-j pressure. -/
theorem pAt_def {Q N : ℕ} (ops : InitOps Q N) (f0 : Field Q N) (j : ℕ) :
    pAt ops f0 j = ops.pressure (initFieldAt ops f0 (j + 1)) := rfl

/-- Unfolding of the iteration-j convergence test. -/
theorem convergedAt_def {Q N : ℕ} (ops : InitOps Q N) (f0 : Field Q N) (tol : ℚ)
    (j : ℕ) :
    convergedAt ops f0 tol j = convergedCheck tol (pAt ops f0 j) (poldAt ops f0 j) := rfl

/-- Characterization of the initialize loop: started at loop index i0
with the field and previous pressure the real loop would hold there, it
returns the first index at which the convergence criterion fires,
together with the field after that iteration, or the last available
index if the criterion never fires. -/
theorem initGo_spec {Q N : ℕ} (ops : InitOps Q N) (tol : ℚ) (f0 : Field Q N) :
    ∀ (rem i0 : ℕ),
      ∃ k, initGo ops tol (rem + 1) i0 (initFieldAt ops f0 i0) (poldAt ops f0 i0)
            = (k, initFieldAt ops f0 (k + 1)) ∧
        i0 ≤ k ∧ k ≤ i0 + rem ∧
        (convergedAt ops f0 tol k = true ∨
          (k = i0 + rem ∧
            ∀ j, i0 ≤ j → j ≤ i0 + rem → convergedAt ops f0 tol j = false)) := by
  intro rem
  induction rem with
  | zero =>
    intro i0
    by_cases hc : convergedAt ops f0 tol i0 = true
    · refine ⟨i0, ?_, Nat.le_refl i0, by omega, Or.inl hc⟩
      simp only [initGo]
      rw [← initFieldAt_succ, ← pAt_def, ← convergedAt_def, if_pos hc]
    · have hc' : convergedAt ops f0 tol i0 = false := by simpa using hc
      refine ⟨i0, ?_, Nat.le_refl i0, by omega, Or.inr ⟨by omega, ?_⟩⟩
      · simp only [initGo]
        rw [← initFieldAt_succ, ← pAt_def, ← convergedAt_def, if_neg hc]
        simp
      · intro j hj1 hj2
        have hji : j = i0 := by omega
        rw [hji]
        exact hc'
  | succ rem ih =>
    intro i0
    by_cases hc : convergedAt ops f0 tol i0 = true
    · refine ⟨i0, ?_, Nat.le_refl i0, by omega, Or.inl hc⟩
      simp only [initGo]
      rw [← initFieldAt_succ, ← pAt_def, ← convergedAt_def, if_pos hc]
    · have hc' : convergedAt ops f0 tol i0 = false := by simpa using hc
      obtain ⟨k, hk, hk1, hk2, hk3⟩ := ih (i0 + 1)
      refine ⟨k, ?_, by omega, by omega, ?_⟩
      · simp only [initGo]
        rw [← initFieldAt_succ, ← pAt_def, ← convergedAt_def, if_neg hc, ← poldAt_succ]
        exact hk
      · rcases hk3 with hcv | ⟨hke, hall⟩
        · exact Or.inl hcv
        · refine Or.inr ⟨by omega, ?_⟩
          intro j hj1 hj2
          rcases Nat.eq_or_lt_of_le hj1 with hji | hji
          · rw [← hji]
            exact hc'
          · exact hall j (by omega) (by omega)

/-- C5: for max_num_steps ≥ 1, initialize performs at most
max_num_steps iterations and returns an index k below max_num_steps at
which the pressure convergence criterion holds, or k = max_num_steps - 1
when the criterion is never satisfied inside the loop. -/
theorem iterInit_bound_convergence {Q N : ℕ} (ops : InitOps Q N) (maxSteps : ℕ)
    (tol : ℚ) (f0 : Field Q N) (h : 1 ≤ maxSteps) :
    ∃ k, (iterInit ops maxSteps tol f0).1 = some k ∧ k < maxSteps ∧
      (convergedAt ops f0 tol k = true ∨
        (k = maxSteps - 1 ∧ ∀ j < maxSteps, convergedAt ops f0 tol j = false)) := by
  obtain ⟨m, hm⟩ : ∃ m, maxSteps = m + 1 := ⟨maxSteps - 1, by omega⟩
  subst hm
  obtain ⟨k, hk, hk1, hk2, hk3⟩ := initGo_spec ops tol f0 m 0
  rw [initFieldAt_zero, poldAt_zero] at hk
  refine ⟨k, ?_, by omega, ?_⟩
  · simp only [iterInit]
    rw [hk]
  · rcases hk3 with hcv | ⟨hke, hall⟩
    · exact Or.inl hcv
    · refine Or.inr ⟨by omega, ?_⟩
      intro j hj
      exact hall j (by omega) (by omega)

/-- Witness for C5: with identity collaborators and tolerance 10 the
criterion fires within a single-step initialize. -/
theorem iterInit_bound_convergence_w :
    1 ≤ 1 ∧
    (∃ k, (iterInit exInitOps 1 10 exField).1 = some k ∧ k < 1 ∧
      (convergedAt exInitOps exField 10 k = true ∨
        (k = 1 - 1 ∧ ∀ j < 1, convergedAt exInitOps exField 10 j = false))) :=
  ⟨by decide, iterInit_bound_convergence exInitOps 1 10 exField (by decide)⟩

/-- C10: initialize changes only the distribution field of the engine
state — counter, mask and reporters are untouched; the resulting field
is an iterate of the plain collision-after-streaming update (so no
boundary is applied and no reporter event is emitted), and that update
applies the initialization collision at every site, masked sites
included. -/
theorem iterInit_frame {Q N : ℕ} (ops : InitOps Q N) (maxSteps : ℕ) (tol : ℚ)
    (s : SimState Q N) :
    (iterInitS ops maxSteps tol s).2.i = s.i ∧
    (iterInitS ops maxSteps tol s).2.no_collision_mask = s.no_collision_mask ∧
    (iterInitS ops maxSteps tol s).2.reporters = s.reporters ∧
    (∃ k, k ≤ maxSteps ∧ (iterInitS ops maxSteps tol s).2.f = initFieldAt ops s.f k) ∧
    (∀ (q : Fin Q) (x : Fin N), s.no_collision_mask x = true →
      initStepField ops s.f q x = ops.collision (ops.streaming s.f) q x) := by
  refine ⟨rfl, rfl, rfl, ?_, fun q x _ => rfl⟩
  cases maxSteps with
  | zero => exact ⟨0, Nat.le_refl 0, rfl⟩
  | succ m =>
    obtain ⟨k, hk, hk1, hk2, hk3⟩ := initGo_spec ops tol s.f m 0
    rw [initFieldAt_zero, poldAt_zero] at hk
    refine ⟨k + 1, by omega, ?_⟩
    show (iterInit ops (m + 1) tol s.f).2 = initFieldAt ops s.f (k + 1)
    simp only [iterInit]
    rw [hk]

/-- Witness for C10: at a concrete state with a masked site 0, the
initialization update still applies the collision there, and the step
counter is untouched. -/
theorem iterInit_frame_w :
    exState.no_collision_mask 0 = true ∧
    initStepField exInitOps exState.f 0 0
      = exInitOps.collision (exInitOps.streaming exState.f) 0 0 ∧
    (iterInitS exInitOps 1 10 exState).2.i = exState.i :=
  ⟨by decide, (iterInit_frame exInitOps 1 10 exState).2.2.2.2 0 0 (by decide),
   (iterInit_frame exInitOps 1 10 exState).1⟩

end Lettuce
